import Mathlib

/-!
Verification development for the moonraker-telegram-bot repository.

The chat layer lives in `bot/main.py`; the definitions below are shallow
embeddings of its pure decision logic (string construction, command-list
preparation, log masking, handler dispatch).  The protocol core
(`websocket_helper.py`, `klippy.py`) is not part of the source tree, so the
components it implements (dispatcher, backoff, printer state machine, status
merge, power device proxy) are modelled from the specification text, each
such definition carrying a doc comment saying so.
-/

namespace Bot

/-! ## `power_toggle_no_confirm` (bot/main.py, lines 532-546)

The Python expression on line 536 is
`"Power " + "Off" if psu_power_device.device_state else "On" + " printer?"`.
The conditional expression binds loosest, so it parses as
`("Power " + "Off") if state else ("On" + " printer?")`. -/

/-- Prompt text of `power_toggle_no_confirm` as a function of
`psu_power_device.device_state` (line 536 of bot/main.py). -/
def power_toggle_text (device_state : Bool) : String :=
  if device_state then "Power " ++ "Off" else "On" ++ " printer?"

/-- Callback data passed to `confirm_keyboard` on line 537 of bot/main.py. -/
def power_toggle_callback (device_state : Bool) : String :=
  if device_state then "power_off_printer" else "power_on_printer"

/-! ## `bot_commands` / `prepare_commands_list` (bot/main.py, lines 1117-1187) -/

/-- The fixed command dictionary built in `bot_commands` (lines 1118-1139). -/
def bot_commands_base : List (String × String) :=
  [("help", "list bot commands"),
   ("status", "send klipper status"),
   ("ip", "send private ip of the bot installation"),
   ("video", "record and upload a video"),
   ("pause", "pause printing"),
   ("resume", "resume printing"),
   ("cancel", "cancel printing"),
   ("power", "toggle moonraker power device from config"),
   ("light", "toggle light"),
   ("emergency", "emergency stop printing"),
   ("shutdown", "shutdown bot host gracefully"),
   ("reboot", "reboot bot host gracefully"),
   ("bot_restart", "restarts the bot service, useful for config updates"),
   ("fw_restart", "Execute klipper FIRMWARE_RESTART"),
   ("services", "List services and restart them"),
   ("files", "list available gcode files"),
   ("macros", "list all visible macros from klipper"),
   ("gcode", "run any gcode command, spaces are supported. \x22gcode G28 Z\x22"),
   ("logs", "get klipper, moonraker, bot logs"),
   ("logs_upload", "upload logs to analyzer")]

/-- `bot_commands` (line 1140): the base dictionary with the entries named in
`telegram_ui.hidden_bot_commands` removed. -/
def bot_commands (hidden : List String) : List (String × String) :=
  bot_commands_base.filter (fun c => !(hidden.contains c.1))

/-- Character class of the regex `^[a-zA-Z0-9_]{1,32}$` used by
`prepare_command` (line 1169). -/
def word_char (c : Char) : Bool :=
  c.isDigit || c.isUpper || c.isLower || c == '_'

/-- `prepare_command` (lines 1168-1177): a macro name passing the regex check
becomes a `BotCommand(marco.lower(), marco)`; anything else yields `None`.
(The Python `try` around the `BotCommand` constructor can also yield `None`
on a constructor exception; that external validation is not modelled — it
could only remove further entries, which none of the claims depend on.) -/
def prepare_command (marco : String) : Option (String × String) :=
  if 1 ≤ marco.length && marco.length ≤ 32 && marco.data.all word_char then
    some (marco.toLower, marco)
  else
    none

/-- `prepare_commands_list` (lines 1180-1187).  `hidden` stands for
`configWrap.telegram_ui.hidden_bot_commands`. -/
def prepare_commands_list (macros : List String) (add_macros : Bool)
    (hidden : List String) : List (String × String) :=
  let commands := bot_commands hidden
  if add_macros then
    let commands2 := commands ++ macros.filterMap prepare_command
    if 100 ≤ commands2.length then commands2.take 99 else commands2
  else
    commands

/-! ## `SensitiveFormatter` (bot/main.py, lines 50-59)

`SensitiveFormatter._filter` is
`re.sub(r"\d{10}:[0-9A-Za-z_-]{35}", "**************", s)`.
The pattern is a fixed-length (46-character) sequence of character classes,
so `re.sub`'s leftmost non-overlapping semantics reduce to: scan left to
right, at each position try to match the class sequence as a prefix; on a
match emit the 14-star mask and resume after the matched span, otherwise
emit the character and move one position right.  `\d` is modelled by
`Char.isDigit` (Python's `\d` also accepts non-ASCII Unicode digits; the
theorems below depend only on no class accepting `'*'`). -/

/-- Character class `[0-9A-Za-z_-]` of the token pattern. -/
def token_char (c : Char) : Bool :=
  c.isDigit || c.isUpper || c.isLower || c == '_' || c == '-'

/-- The class sequence of the regex `\d{10}:[0-9A-Za-z_-]{35}`. -/
def token_pattern : List (Char → Bool) :=
  List.replicate 10 Char.isDigit ++ [fun c => c == ':'] ++
    List.replicate 35 token_char

/-- Try to match a class sequence as a prefix; on success return the rest. -/
def matchClasses : List (Char → Bool) → List Char → Option (List Char)
  | [], xs => some xs
  | _ :: _, [] => none
  | p :: ps, c :: xs => if p c then matchClasses ps xs else none

/-- The replacement `"**************"` (14 stars). -/
def mask_stars : List Char := List.replicate 14 '*'

theorem matchClasses_length {ps : List (Char → Bool)} :
    ∀ {xs rem : List Char}, matchClasses ps xs = some rem →
      xs.length = ps.length + rem.length := by
  induction ps with
  | nil =>
    intro xs rem h
    simp only [matchClasses, Option.some.injEq] at h
    simp [h]
  | cons p ps ih =>
    intro xs rem h
    cases xs with
    | nil => simp [matchClasses] at h
    | cons c cs =>
      simp only [matchClasses] at h
      by_cases hp : p c = true
      · rw [if_pos hp] at h
        have := ih h
        simp [this]
        omega
      · rw [if_neg hp] at h
        exact absurd h (by simp)

theorem token_pattern_length : Bot.token_pattern.length = 46 := by
  simp [Bot.token_pattern]

/-- `SensitiveFormatter._filter`, on the character list of the message. -/
def sub_tokens (s : List Char) : List Char :=
  match s with
  | [] => []
  | c :: rest =>
    match h : matchClasses token_pattern (c :: rest) with
    | some rem => mask_stars ++ sub_tokens rem
    | none => c :: sub_tokens rest
termination_by s.length
decreasing_by
  · have hlen := matchClasses_length h
    rw [token_pattern_length] at hlen
    simp only [List.length_cons] at hlen ⊢
    omega
  · simp only [List.length_cons]
    omega

/-- `SensitiveFormatter._filter` on strings; `SensitiveFormatter.format`
returns `sensitive_filter` of the underlying formatted record. -/
def sensitive_filter (s : String) : String := String.mk (sub_tokens s.data)

theorem star_not_matched : ∀ p ∈ token_pattern, p '*' = false := by
  intro p hp
  simp only [token_pattern, List.mem_append, List.mem_singleton] at hp
  rcases hp with (h | h) | h
  · rw [List.eq_of_mem_replicate h]
    decide
  · rw [h]
    decide
  · rw [List.eq_of_mem_replicate h]
    decide

theorem matchClasses_none_of_star :
    ∀ (ps : List (Char → Bool)) (xs : List Char) (j : Nat),
      (∀ p ∈ ps, p '*' = false) → j < ps.length → xs.get? j = some '*' →
      matchClasses ps xs = none := by
  intro ps
  induction ps with
  | nil =>
    intro xs j _ hj _
    simp at hj
  | cons p ps ih =>
    intro xs j hstar hj hget
    cases xs with
    | nil => rfl
    | cons c cs =>
      cases j with
      | zero =>
        simp only [List.get?] at hget
        have hc : c = '*' := by injection hget
        subst hc
        simp only [matchClasses]
        rw [hstar p (List.mem_cons_self p ps)]
        simp
      | succ k =>
        simp only [matchClasses]
        by_cases hp : p c = true
        · rw [if_pos hp]
          exact ih cs k (fun q hq => hstar q (List.mem_cons_of_mem p hq))
            (by simpa using hj) (by simpa using hget)
        · rw [if_neg hp]

theorem matchClasses_none_congr :
    ∀ (ps : List (Char → Bool)) (xs ys : List Char),
      xs.take ps.length = ys.take ps.length →
      (matchClasses ps xs = none ↔ matchClasses ps ys = none) := by
  intro ps
  induction ps with
  | nil =>
    intro xs ys _
    simp [matchClasses]
  | cons p ps ih =>
    intro xs ys htake
    cases xs with
    | nil =>
      cases ys with
      | nil => rfl
      | cons y ys => simp at htake
    | cons x xs =>
      cases ys with
      | nil => simp at htake
      | cons y ys =>
        simp only [List.length_cons, List.take_succ_cons, List.cons.injEq] at htake
        obtain ⟨rfl, htl⟩ := htake
        simp only [matchClasses]
        by_cases hp : p x = true
        · rw [if_pos hp, if_pos hp]
          exact ih xs ys htl
        · rw [if_neg hp, if_neg hp]

theorem sub_tokens_nil : sub_tokens [] = [] := by
  rw [sub_tokens]

theorem sub_tokens_cons_some {c : Char} {rest rem : List Char}
    (h : matchClasses token_pattern (c :: rest) = some rem) :
    sub_tokens (c :: rest) = mask_stars ++ sub_tokens rem := by
  rw [sub_tokens]
  split
  · rename_i rem2 h2
    rw [h] at h2
    injection h2 with h3
    rw [h3]
  · rename_i h2
    rw [h] at h2
    exact absurd h2 (by simp)

theorem sub_tokens_cons_none {c : Char} {rest : List Char}
    (h : matchClasses token_pattern (c :: rest) = none) :
    sub_tokens (c :: rest) = c :: sub_tokens rest := by
  rw [sub_tokens]
  split
  · rename_i rem2 h2
    rw [h] at h2
    exact absurd h2 (by simp)
  · rfl

theorem sub_tokens_take_or_star :
    ∀ (k : Nat) (s : List Char), s.length ≤ k → ∀ (n : Nat),
      (sub_tokens s).take n = s.take n ∨
        ∃ j, j < n ∧ (sub_tokens s).get? j = some '*' := by
  intro k
  induction k with
  | zero =>
    intro s hs n
    have : s = [] := List.length_eq_zero.mp (Nat.le_zero.mp hs)
    subst this
    left
    rw [sub_tokens_nil]
  | succ k ih =>
    intro s hs n
    cases s with
    | nil =>
      left
      rw [sub_tokens_nil]
    | cons c rest =>
      cases hm : matchClasses token_pattern (c :: rest) with
      | some rem =>
        cases n with
        | zero =>
          left
          simp
        | succ m =>
          right
          refine ⟨0, Nat.succ_pos m, ?_⟩
          rw [sub_tokens_cons_some hm]
          rfl
      | none =>
        rw [sub_tokens_cons_none hm]
        cases n with
        | zero => left; rfl
        | succ m =>
          have hrest : rest.length ≤ k := by
            simp only [List.length_cons] at hs
            omega
          rcases ih rest hrest m with htake | ⟨j, hj, hget⟩
          · left
            simp only [List.take_succ_cons, htake]
          · right
            exact ⟨j + 1, by omega, by simpa using hget⟩

theorem sub_tokens_no_match :
    ∀ (k : Nat) (s : List Char), s.length ≤ k → ∀ (n : Nat),
      matchClasses token_pattern ((sub_tokens s).drop n) = none := by
  intro k
  induction k with
  | zero =>
    intro s hs n
    have : s = [] := List.length_eq_zero.mp (Nat.le_zero.mp hs)
    subst this
    rw [sub_tokens_nil]
    simp only [List.drop_nil]
    rfl
  | succ k ih =>
    intro s hs n
    cases s with
    | nil =>
      rw [sub_tokens_nil]
      simp only [List.drop_nil]
      rfl
    | cons c rest =>
      cases hm : matchClasses token_pattern (c :: rest) with
      | some rem =>
        rw [sub_tokens_cons_some hm]
        have hlen := matchClasses_length hm
        rw [token_pattern_length] at hlen
        simp only [List.length_cons] at hs hlen
        by_cases hn : n < 14
        · apply matchClasses_none_of_star token_pattern _ 0 star_not_matched
            (by rw [token_pattern_length]; omega)
          rw [List.get?_drop]
          rw [List.get?_append (by simp [mask_stars]; omega)]
          simp only [mask_stars, Nat.add_zero, List.get?_eq_getElem?,
            List.getElem?_replicate]
          rw [if_pos (by omega)]
        · have hn14 : n = mask_stars.length + (n - 14) := by
            simp only [mask_stars, List.length_replicate]
            omega
          rw [hn14, List.drop_append]
          exact ih rem (by omega) (n - 14)
      | none =>
        have hrest : rest.length ≤ k := by
          simp only [List.length_cons] at hs
          omega
        rw [sub_tokens_cons_none hm]
        cases n with
        | succ m =>
          simp only [List.drop_succ_cons]
          exact ih rest hrest m
        | zero =>
          simp only [List.drop_zero]
          rcases sub_tokens_take_or_star k rest hrest 45 with htake | ⟨j, hj, hget⟩
          · have h46 : (46 : Nat) = 45 + 1 := rfl
            have heq : (c :: sub_tokens rest).take token_pattern.length
                = (c :: rest).take token_pattern.length := by
              rw [token_pattern_length, h46, List.take_succ_cons,
                List.take_succ_cons, htake]
            exact (matchClasses_none_congr token_pattern _ _ heq).mpr hm
          · exact matchClasses_none_of_star token_pattern _ (j + 1)
              star_not_matched (by rw [token_pattern_length]; omega)
              (by simpa using hget)

/-! ## Command handlers and the inline-keyboard dispatch
(bot/main.py, lines 288-362 and 663-805)

Handlers are embedded as the list of externally visible actions they
perform.  An `exec_func` coroutine argument is represented by the effect
list its body performs when awaited; in Python the coroutine object is
built eagerly but only awaited on the non-confirmation path, which is
exactly when its effects appear below. -/

/-- RPC calls to the printer host issued through `ws_helper` / the power
device proxy. -/
inductive Rpc where
  | manage_printing (action : String)
  | emergency_stop_printer
  | firmware_restart_printer
  | shutdown_pi_host
  | reboot_pi_host
  | execute_ws_gcode_script (script : String)
  | restart_system_service (service : String)
  | switch_psu (state : Bool)
  deriving DecidableEq

/-- Externally visible actions of a handler. -/
inductive Effect where
  | chat_action
  | answer_query
  | prompt (text callback : String)
  | reply (text : String)
  | rpc (r : Rpc)
  | delete_message
  | log_error
  | log_debug
  | edit_prompt (text callback : String)
  | edit_text (text : String)
  | delegate (handler_name : String)
  | restart_bot_service
  | cleanup_lapses
  deriving DecidableEq

/-- `command_exec` (lines 335-338): reply with `exec_text` when it is not
`None`, then await `exec_func`. -/
def command_exec (exec_text : Option String) (exec_effects : List Effect) :
    List Effect :=
  (match exec_text with
   | some t => [Effect.reply t]
   | none => []) ++ exec_effects

/-- `command_confirm_message_ext` (lines 318-332).  `needs_confirm` stands
for `telegram_ui.is_present_in_require_confirmation(command) or
telegram_ui.confirm_command()`. -/
def command_confirm_message_ext (needs_confirm : Bool)
    (confirm_text exec_text callback_mess : String)
    (exec_effects : List Effect) : List Effect :=
  Effect.chat_action ::
    (if needs_confirm then [Effect.prompt confirm_text callback_mess]
     else command_exec (some exec_text) exec_effects)

/-- `pause_printing` (lines 341-344). -/
def pause_printing (needs_confirm : Bool) : List Effect :=
  command_confirm_message_ext needs_confirm "Поставить печать на паузу?"
    "Печать на паузе" "pause_printing" [Effect.rpc (Rpc.manage_printing "pause")]

/-- `resume_printing` (lines 347-350). -/
def resume_printing (needs_confirm : Bool) : List Effect :=
  command_confirm_message_ext needs_confirm "Продолжить печать?"
    "Печать продолжена" "resume_printing" [Effect.rpc (Rpc.manage_printing "resume")]

/-- `cancel_printing` (lines 353-356). -/
def cancel_printing (needs_confirm : Bool) : List Effect :=
  command_confirm_message_ext needs_confirm "Отменить печать?"
    "Печать отменена" "cancel_printing" [Effect.rpc (Rpc.manage_printing "cancel")]

/-- `emergency_stop` (lines 359-362). -/
def emergency_stop (needs_confirm : Bool) : List Effect :=
  command_confirm_message_ext needs_confirm "Выполнить аварийную остановку?"
    "Аварийная остановка выполнена" "emergency_stop"
    [Effect.rpc Rpc.emergency_stop_printer]

/-- Python's `needle in hay` substring test, on character lists. -/
def contains_sub (needle : List Char) : List Char → Bool
  | [] => needle.isEmpty
  | c :: t => needle.isPrefixOf (c :: t) || contains_sub needle t

/-- Python's `needle in hay` substring test on strings. -/
def py_in (needle hay : String) : Bool := contains_sub needle.data hay.data

/-- The `elif` chain of `button_handler` (lines 687-802), as a function of
`query.data` and whether `reply_to_message` is present: the branch's
effects plus the final value of `delete_query`.  Branches that only call
into another chat-layer handler are recorded as `Effect.delegate`; the
`print_file` branch (whose success/failure sub-cases edit chat messages but
issue no `ws_helper` RPC either way) is recorded as a delegation to
`klippy.start_printing_file`. -/
def button_handler_branch (data : String) (has_reply_to : Bool) :
    List Effect × Bool :=
  if data = "do_nothing" then ([Effect.delete_message], true)
  else if data = "cleanup_timelapse_unfinished" then
    ([Effect.reply "Removing unfinished timelapses data", Effect.cleanup_lapses],
      true)
  else if py_in "gcode:" data then
    ([Effect.rpc (Rpc.execute_ws_gcode_script (data.replace "gcode:" ""))], true)
  else if !has_reply_to then ([Effect.log_error], true)
  else if data = "emergency_stop" then
    (command_exec (some "Аварийное отключение выполнено")
      [Effect.rpc Rpc.emergency_stop_printer], true)
  else if data = "firmware_restart" then
    (command_exec (some "klipper firmware перезагружен")
      [Effect.rpc Rpc.firmware_restart_printer], true)
  else if data = "cancel_printing" then
    (command_exec (some "Печать отменена")
      [Effect.rpc (Rpc.manage_printing "cancel")], true)
  else if data = "pause_printing" then
    (command_exec (some "Печать на паузе")
      [Effect.rpc (Rpc.manage_printing "pause")], true)
  else if data = "resume_printing" then
    (command_exec (some "Печать продолжена")
      [Effect.rpc (Rpc.manage_printing "resume")], true)
  else if data = "shutdown_host" then
    (Effect.delete_message :: command_exec (some "Хост выключен")
      [Effect.rpc Rpc.shutdown_pi_host], true)
  else if data = "reboot_host" then
    (Effect.delete_message :: command_exec (some "Хост перезагружен")
      [Effect.rpc Rpc.reboot_pi_host], true)
  else if data = "bot_restart" then
    (Effect.delete_message :: command_exec (some "ТГ бот перезагружен")
      [Effect.restart_bot_service], true)
  else if data = "power_off_printer" then
    ([Effect.rpc (Rpc.switch_psu false), Effect.reply "toggled off report"], true)
  else if data = "power_on_printer" then
    ([Effect.rpc (Rpc.switch_psu true), Effect.reply "toggled on report"], true)
  else if py_in "macro:" data then
    (command_exec (some ("Запуск макроса: " ++ data.replace "macro:" ""))
      [Effect.rpc (Rpc.execute_ws_gcode_script (data.replace "macro:" ""))], true)
  else if py_in "macroc:" data then
    ([Effect.edit_prompt ("Выполнить макрос " ++ data.replace "macroc:" "" ++ "?")
        ("macro:" ++ data.replace "macroc:" "")], false)
  else if py_in "gcode_files_offset:" data then
    ([Effect.edit_text "Gcode files to print:"], false)
  else if py_in "print_file" data then
    ([Effect.delegate "klippy.start_printing_file"], true)
  else if py_in "rstrt_srvc:" data then
    ([Effect.edit_prompt
        ("Перезапустить сервис \x22" ++ data.replace "rstrt_srvc:" "" ++ "\x22?")
        ("rstrt_srv:" ++ data.replace "rstrt_srvc:" "")], false)
  else if py_in "rstrt_srv:" data then
    (command_exec (some ("Перезапуск сервиса: " ++ data.replace "rstrt_srv:" ""))
      [Effect.rpc (Rpc.restart_system_service (data.replace "rstrt_srv:" ""))],
      true)
  else if py_in "logs_upload:" data then
    ([Effect.delegate "upload_logs_no_confirm"], true)
  else if py_in "send_logs:" data then
    ([Effect.delegate "send_logs_no_confirm"], true)
  else if py_in "files:" data then
    ([Effect.delegate "get_gcode_files_no_confirm"], true)
  else if py_in "services:" data then
    ([Effect.delegate "services_keyboard_no_confirm"], true)
  else if py_in "macros:" data then
    ([Effect.delegate "get_macros_no_confirm"], true)
  else if py_in "help:" data then
    ([Effect.delegate "help_command_no_confirm"], true)
  else if py_in "status:" data then
    ([Effect.delegate "status_no_confirm"], true)
  else if py_in "ip:" data then
    ([Effect.delegate "get_ip_no_confirm"], true)
  else if py_in "power_toggle:" data then
    ([Effect.delegate "power_toggle_no_confirm"], true)
  else if py_in "light_toggle:" data then
    ([Effect.delegate "light_toggle_no_confirm"], true)
  else ([Effect.log_debug], true)

/-- `button_handler` (lines 663-805): chat action and query answer, the
selected branch, and the final `delete_message` when `delete_query` is
still set. -/
def button_handler (data : String) (has_reply_to : Bool) : List Effect :=
  let body := button_handler_branch data has_reply_to
  Effect.chat_action :: Effect.answer_query ::
    (body.1 ++ if body.2 then [Effect.delete_message] else [])

/-- The printer-control RPCs among a handler's effects, in order. -/
def rpcs_of (effects : List Effect) : List Rpc :=
  effects.filterMap (fun e =>
    match e with
    | Effect.rpc r => some r
    | _ => none)

/-- The callback data of the confirmation prompts among a handler's
effects. -/
def prompt_callbacks (effects : List Effect) : List String :=
  effects.filterMap (fun e =>
    match e with
    | Effect.prompt _ cb => some cb
    | _ => none)

end Bot

/-! ## The protocol core, modelled from the specification

`websocket_helper.py` and `klippy.py` are not part of the source tree; the
spec (sections 2-5, 7) is the authority for the components below. -/

namespace Core

/-- Modelled from the spec: the Connection Manager's reconnect backoff delay
after `n` consecutive failures (`websocket_helper.py` is missing from src/).
"starts at a fixed base, doubles each consecutive failure, and is capped at
a maximum"; the optional random jitter is not modelled. -/
def backoff_delay (base cap : Nat) (n : Nat) : Nat := min (base * 2 ^ n) cap

/-- Modelled from the spec: the Connection Manager's consecutive-failure
counter. -/
structure ConnState where
  failures : Nat
  deriving DecidableEq

inductive ConnEvent where
  | success
  | failure
  deriving DecidableEq

/-- Modelled from the spec: "A successful connection resets the failure
counter to zero"; a failure increments it. -/
def conn_step : ConnState → ConnEvent → ConnState
  | _, ConnEvent.success => ⟨0⟩
  | s, ConnEvent.failure => ⟨s.failures + 1⟩

/-- Lifecycle states of the Printer State Machine (spec section 4.4). -/
inductive PState where
  | Disconnected
  | Startup
  | Ready
  | Printing
  | Paused
  | ErrorState
  | ShuttingDown
  deriving DecidableEq

/-- Inputs of the Printer State Machine: status deltas and connection
events (spec section 4.4). -/
inductive PEvent where
  | connected
  | initialized
  | print_started
  | pause_delta
  | resume_delta
  | print_done
  | error_delta
  | shutdown_notif
  | connection_lost
  deriving DecidableEq

/-- Modelled from the spec: the edge an input implies from a state, when
that edge is in the defined edge set (`websocket_helper.py` is missing from
src/). -/
def target : PState → PEvent → Option PState
  | PState.Disconnected, PEvent.connected => some PState.Startup
  | PState.Startup, PEvent.initialized => some PState.Ready
  | PState.Ready, PEvent.print_started => some PState.Printing
  | PState.Printing, PEvent.pause_delta => some PState.Paused
  | PState.Paused, PEvent.resume_delta => some PState.Printing
  | PState.Printing, PEvent.print_done => some PState.Ready
  | PState.Paused, PEvent.print_done => some PState.Ready
  | PState.Printing, PEvent.error_delta => some PState.ErrorState
  | PState.Paused, PEvent.error_delta => some PState.ErrorState
  | PState.Ready, PEvent.error_delta => some PState.ErrorState
  | _, PEvent.shutdown_notif => some PState.ShuttingDown
  | _, PEvent.connection_lost => some PState.Disconnected
  | _, _ => none

/-- Modelled from the spec: one State Machine step.  The boolean is the
logged-warning flag: an input implying an edge outside the set leaves the
state unchanged and is logged, never silently accepted. -/
def pstep (s : PState) (e : PEvent) : PState × Bool :=
  match target s e with
  | some t => (t, false)
  | none => (s, true)

/-- The defined edge set of spec section 4.4, stated independently of
`target`. -/
def validEdge : PState → PState → Bool
  | PState.Disconnected, PState.Startup => true
  | PState.Startup, PState.Ready => true
  | PState.Ready, PState.Printing => true
  | PState.Printing, PState.Paused => true
  | PState.Paused, PState.Printing => true
  | PState.Printing, PState.Ready => true
  | PState.Paused, PState.Ready => true
  | PState.Printing, PState.ErrorState => true
  | PState.Paused, PState.ErrorState => true
  | PState.Ready, PState.ErrorState => true
  | _, PState.ShuttingDown => true
  | _, PState.Disconnected => true
  | _, _ => false

/-- StatusSnapshot (spec section 3): subsystem name to field name to value,
plus a timestamp. -/
structure StatusSnapshot where
  objects : String → String → Option String
  eventtime : Nat

/-- A status delta: the fields it mentions, plus its event time. -/
structure StatusDelta where
  objects : String → String → Option String
  eventtime : Nat

/-- Modelled from the spec: "incoming deltas are merged field-by-field into
the current StatusSnapshot (last-writer-wins per field, missing fields
retained)" (`websocket_helper.py` is missing from src/). -/
def merge_status (s : StatusSnapshot) (d : StatusDelta) : StatusSnapshot :=
  { objects := fun sub f =>
      match d.objects sub f with
      | some v => some v
      | none => s.objects sub f,
    eventtime := d.eventtime }

/-- PowerDevice (spec section 3): name, boolean on/off, last error text
(`none` models Python's empty/absent error). -/
structure PowerDevice where
  name : String
  device_state : Bool
  device_error : Option String
  deriving DecidableEq

/-- Result of the power-toggle RPC round trip. -/
inductive RpcOutcome where
  | ok
  | err (message : String)
  deriving DecidableEq

/-- Modelled from the spec: `PowerDevice.switch_device` (klippy.py is
missing from src/): "on success, updates the PowerDevice's on/off flag; on
RPC failure it records the error text on the device and leaves the prior
on/off value unchanged (never optimistically flips state before
confirmation)".  A successful round trip clears the recorded error, which
is what lets the callers in `button_handler` report success by checking
`device_error`. -/
def switch_device (dev : PowerDevice) (requested : Bool) (outcome : RpcOutcome) :
    PowerDevice :=
  match outcome with
  | RpcOutcome.ok => { dev with device_state := requested, device_error := none }
  | RpcOutcome.err m => { dev with device_error := some m }

/-- Modelled from the spec: `PowerDevice.toggle_device` "reads current state
and calls `switchDevice` with the negation"; it returns the updated device
and its resulting on/off state, the boolean `light_toggle_no_confirm`
reports. -/
def toggle_device (dev : PowerDevice) (outcome : RpcOutcome) :
    PowerDevice × Bool :=
  let updated := switch_device dev (!dev.device_state) outcome
  (updated, updated.device_state)

/-- The message built by `light_toggle_no_confirm` (bot/main.py, lines
562-564) from the toggled device and the boolean `toggle_device`
returned. -/
def light_toggle_message (dev : PowerDevice) (toggled : Bool) : String :=
  let mess := "Device `" ++ dev.name ++ "` toggled " ++
    (if toggled then "on" else "off")
  match dev.device_error with
  | some e => mess ++ "\nError: `" ++ e ++ "`"
  | none => mess

/-! ### Request Dispatcher (spec sections 3, 4.2, 5) -/

/-- Typed completion of a PendingRequest (spec sections 4.2 and 7). -/
inductive Outcome where
  | success
  | rpc_error
  | timed_out
  | connection_lost
  | cancelled
  deriving DecidableEq

/-- Events the Dispatcher reacts to: an issued call, a matching response
(successful or error), a per-call timeout, a caller-side cancellation, and
connection loss. -/
inductive DEvent where
  | call
  | response (id : Nat) (ok : Bool)
  | timeout (id : Nat)
  | cancel (id : Nat)
  | disconnect
  deriving DecidableEq

/-- Modelled from the spec: the Dispatcher's bookkeeping
(`websocket_helper.py` is missing from src/): the monotonically increasing
id allocator, the pending set, and the completion log (each completion
delivered exactly once is one log entry). -/
structure DispatcherState where
  next_id : Nat
  pending : List Nat
  completed : List (Nat × Outcome)
  deriving DecidableEq

def dispatcher_init : DispatcherState := ⟨0, [], []⟩

/-- Ids that have been completed, in completion order. -/
def completed_ids (s : DispatcherState) : List Nat := s.completed.map Prod.fst

/-- Complete a single pending request with the given outcome; an id that is
not pending (already completed or never issued) is ignored — a late
response, duplicate timeout or duplicate cancel completes nothing. -/
def complete_one (s : DispatcherState) (i : Nat) (o : Outcome) :
    DispatcherState :=
  if i ∈ s.pending then
    { s with pending := s.pending.erase i, completed := s.completed ++ [(i, o)] }
  else s

/-- Modelled from the spec: one Dispatcher event step.  `call` allocates the
next id and registers the PendingRequest; response/timeout/cancel complete
exactly that call; `disconnect` fails *all* currently pending calls with a
connection-lost error in this one step. -/
def dispatcher_step (s : DispatcherState) (e : DEvent) : DispatcherState :=
  match e with
  | DEvent.call =>
      { s with next_id := s.next_id + 1, pending := s.pending ++ [s.next_id] }
  | DEvent.response i ok =>
      complete_one s i (if ok then Outcome.success else Outcome.rpc_error)
  | DEvent.timeout i => complete_one s i Outcome.timed_out
  | DEvent.cancel i => complete_one s i Outcome.cancelled
  | DEvent.disconnect =>
      { s with pending := [],
               completed := s.completed ++
                 s.pending.map (fun i => (i, Outcome.connection_lost)) }

def dispatcher_run (es : List DEvent) : DispatcherState :=
  es.foldl dispatcher_step dispatcher_init

/-- Dispatcher bookkeeping invariant: no duplicate pending ids, no id
completed twice, no id both pending and completed, and the issued ids
(`i < next_id`) are exactly the pending and completed ones — none leaked. -/
def dispatcher_ok (s : DispatcherState) : Prop :=
  s.pending.Nodup ∧ (completed_ids s).Nodup ∧
  (∀ i ∈ s.pending, i ∉ completed_ids s) ∧
  (∀ i : Nat, (i ∈ s.pending ∨ i ∈ completed_ids s) ↔ i < s.next_id)

theorem dispatcher_ok_init : dispatcher_ok dispatcher_init := by
  refine ⟨List.nodup_nil, List.nodup_nil, ?_, ?_⟩
  · intro i hi
    simp [dispatcher_init] at hi
  · intro i
    simp [dispatcher_init, completed_ids]

theorem dispatcher_ok_complete_one {s : DispatcherState} (h : dispatcher_ok s)
    (i : Nat) (o : Outcome) : dispatcher_ok (complete_one s i o) := by
  obtain ⟨hnp, hnc, hdisj, hpart⟩ := h
  unfold complete_one
  by_cases hi : i ∈ s.pending
  · rw [if_pos hi]
    refine ⟨hnp.erase i, ?_, ?_, ?_⟩
    · simp only [completed_ids, List.map_append, List.map_cons, List.map_nil]
      rw [List.nodup_append]
      refine ⟨hnc, List.nodup_singleton i, ?_⟩
      intro j hj hj'
      simp only [List.mem_singleton] at hj'
      subst hj'
      exact hdisj _ hi hj
    · intro j hj
      have hj2 := (hnp.mem_erase_iff).mp hj
      simp only [completed_ids, List.map_append, List.map_cons, List.map_nil,
        List.mem_append, List.mem_singleton]
      push_neg
      exact ⟨hdisj j hj2.2, hj2.1⟩
    · intro j
      rw [← hpart j]
      have hj2 := hnp.mem_erase_iff (b := i) (a := j)
      simp only [completed_ids, List.map_append, List.map_cons, List.map_nil,
        List.mem_append, List.mem_singleton, hj2]
      constructor
      · rintro ((⟨_, hjp⟩) | (hjc | rfl))
        · exact Or.inl hjp
        · exact Or.inr hjc
        · exact Or.inl hi
      · rintro (hjp | hjc)
        · by_cases hji : j = i
          · subst hji
            right
            right
            rfl
          · exact Or.inl ⟨hji, hjp⟩
        · right
          left
          exact hjc
  · rw [if_neg hi]
    exact ⟨hnp, hnc, hdisj, hpart⟩

theorem dispatcher_ok_step {s : DispatcherState} (h : dispatcher_ok s)
    (e : DEvent) : dispatcher_ok (dispatcher_step s e) := by
  obtain ⟨hnp, hnc, hdisj, hpart⟩ := h
  cases e with
  | call =>
    have hfresh : s.next_id ∉ s.pending := by
      intro hmem
      have := (hpart s.next_id).mp (Or.inl hmem)
      omega
    have hfreshc : s.next_id ∉ completed_ids s := by
      intro hmem
      have := (hpart s.next_id).mp (Or.inr hmem)
      omega
    simp only [dispatcher_step]
    refine ⟨?_, hnc, ?_, ?_⟩
    · rw [List.nodup_append]
      refine ⟨hnp, List.nodup_singleton _, ?_⟩
      intro j hj hj'
      simp only [List.mem_singleton] at hj'
      subst hj'
      exact hfresh hj
    · intro j hj
      rcases List.mem_append.mp hj with hj | hj
      · exact hdisj j hj
      · simp only [List.mem_singleton] at hj
        subst hj
        exact hfreshc
    · intro j
      simp only [dispatcher_step, List.mem_append, List.mem_singleton]
      constructor
      · rintro ((hjp | rfl) | hjc)
        · have := (hpart j).mp (Or.inl hjp)
          omega
        · omega
        · have := (hpart j).mp (Or.inr hjc)
          omega
      · intro hj
        by_cases hje : j = s.next_id
        · subst hje
          exact Or.inl (Or.inr rfl)
        · have hlt : j < s.next_id := by omega
          rcases (hpart j).mpr hlt with hjp | hjc
          · exact Or.inl (Or.inl hjp)
          · exact Or.inr hjc
  | response i ok => exact dispatcher_ok_complete_one ⟨hnp, hnc, hdisj, hpart⟩ i _
  | timeout i => exact dispatcher_ok_complete_one ⟨hnp, hnc, hdisj, hpart⟩ i _
  | cancel i => exact dispatcher_ok_complete_one ⟨hnp, hnc, hdisj, hpart⟩ i _
  | disconnect =>
    have hids : completed_ids (dispatcher_step s DEvent.disconnect)
        = completed_ids s ++ s.pending := by
      simp only [dispatcher_step, completed_ids, List.map_append, List.map_map]
      have hcomp : (Prod.fst ∘ fun i : Nat => (i, Outcome.connection_lost)) = id := rfl
      rw [hcomp, List.map_id]
    refine ⟨List.nodup_nil, ?_, ?_, ?_⟩
    · rw [hids, List.nodup_append]
      refine ⟨hnc, hnp, ?_⟩
      intro j hj hj'
      exact hdisj j hj' hj
    · intro j hj
      simp [dispatcher_step] at hj
    · intro j
      rw [hids]
      simp only [dispatcher_step, List.not_mem_nil, false_or, List.mem_append]
      rw [or_comm]
      exact hpart j

theorem dispatcher_ok_run (es : List DEvent) : dispatcher_ok (dispatcher_run es) := by
  have main : ∀ (es : List DEvent) (s : DispatcherState), dispatcher_ok s →
      dispatcher_ok (es.foldl dispatcher_step s) := by
    intro es
    induction es with
    | nil => intro s hs; exact hs
    | cons e es ih =>
      intro s hs
      exact ih (dispatcher_step s e) (dispatcher_ok_step hs e)
  exact main es dispatcher_init dispatcher_ok_init

end Core

/-! ## Theorems -/

/-- **C1.** For every sequence of issued calls and subsequent events
(matching response, timeout, cancellation, connection loss), the
Dispatcher's bookkeeping stays exact: no pending id is duplicated, every
completion is delivered exactly once, no id is both pending and completed,
and the issued ids are exactly the pending-or-completed ones — none leaked;
moreover a connection drop fails *all* currently pending calls with a
connection-lost completion atomically in that one event, emptying the
pending set. -/
theorem C1_pending_complete_exactly_once (es : List Core.DEvent) :
    Core.dispatcher_ok (Core.dispatcher_run es) ∧
    (Core.dispatcher_step (Core.dispatcher_run es) Core.DEvent.disconnect).pending
      = [] ∧
    (Core.dispatcher_step (Core.dispatcher_run es) Core.DEvent.disconnect).completed
      = (Core.dispatcher_run es).completed ++
          (Core.dispatcher_run es).pending.map
            (fun i => (i, Core.Outcome.connection_lost)) :=
  ⟨Core.dispatcher_ok_run es, rfl, rfl⟩

/-- **C2.** The reconnect backoff delay is non-decreasing in the number of
consecutive failures and bounded by the configured cap; with base 1s and
cap 60s the sequence is 1, 2, 4, 8, 16, 32, 60, 60, ...; a successful
connection resets the failure counter to zero. -/
theorem C2_backoff_monotone_capped (base cap n : Nat) (s : Core.ConnState) :
    Core.backoff_delay base cap n ≤ Core.backoff_delay base cap (n + 1) ∧
    Core.backoff_delay base cap n ≤ cap ∧
    (List.range 8).map (Core.backoff_delay 1 60) = [1, 2, 4, 8, 16, 32, 60, 60] ∧
    (Core.conn_step s Core.ConnEvent.success).failures = 0 := by
  refine ⟨?_, min_le_right _ _, by decide, rfl⟩
  apply min_le_min _ le_rfl
  exact Nat.mul_le_mul_left base (Nat.pow_le_pow_right (by norm_num) (by omega))

/-- **C3.** For every state of the Printer State Machine and every input,
the step either moves along an edge of the defined edge set (with no
warning logged) or leaves the state unchanged and logs a warning — never a
silently accepted out-of-set transition. -/
theorem C3_lifecycle_edges_only (s : Core.PState) (e : Core.PEvent) :
    (Core.validEdge s (Core.pstep s e).1 = true ∧ (Core.pstep s e).2 = false) ∨
    ((Core.pstep s e).1 = s ∧ (Core.pstep s e).2 = true) := by
  cases s <;> cases e <;> decide

/-- **C4.** Merging the same status delta twice produces the same
StatusSnapshot as merging it once: the additive field-by-field merge, which
retains every field the delta does not mention, is idempotent per delta. -/
theorem C4_merge_idempotent (s : Core.StatusSnapshot) (d : Core.StatusDelta) :
    Core.merge_status (Core.merge_status s d) d = Core.merge_status s d := by
  unfold Core.merge_status
  congr 1
  funext sub f
  cases h : d.objects sub f <;> simp [h]

/-- **C5.** When `switch_device` fails with an RPC error, the PowerDevice's
on/off flag keeps its prior value and `device_error` is set to the server's
message; the flag is updated only on RPC success. -/
theorem C5_switch_device_no_optimistic_flip (dev : Core.PowerDevice)
    (requested : Bool) (m : String) :
    (Core.switch_device dev requested (Core.RpcOutcome.err m)).device_state
        = dev.device_state ∧
    (Core.switch_device dev requested (Core.RpcOutcome.err m)).device_error
        = some m ∧
    (Core.switch_device dev requested Core.RpcOutcome.ok).device_state
        = requested := by
  exact ⟨rfl, rfl, rfl⟩

/-- **C6.** `toggle_device` calls `switch_device` with the negation of the
current on/off state and returns the resulting state, so on success the
"toggled on"/"toggled off" text of `light_toggle_no_confirm` reflects the
negated prior state. -/
theorem C6_toggle_negates (dev : Core.PowerDevice) (outcome : Core.RpcOutcome) :
    Core.toggle_device dev outcome
        = (Core.switch_device dev (!dev.device_state) outcome,
           (Core.switch_device dev (!dev.device_state) outcome).device_state) ∧
    (Core.toggle_device dev Core.RpcOutcome.ok).2 = !dev.device_state ∧
    Core.light_toggle_message (Core.toggle_device dev Core.RpcOutcome.ok).1
        (Core.toggle_device dev Core.RpcOutcome.ok).2
      = "Device `" ++ dev.name ++ "` toggled " ++
          (if dev.device_state then "off" else "on") := by
  refine ⟨rfl, rfl, ?_⟩
  cases h : dev.device_state <;>
    simp [Core.toggle_device, Core.switch_device, Core.light_toggle_message, h]

/-- **C7.** `/pause`, `/resume` and `/cancel` issue exactly one
`ws_helper.manage_printing` RPC with argument `"pause"`, `"resume"` and
`"cancel"` respectively, and `/emergency` issues exactly the
`ws_helper.emergency_stop_printer` RPC — directly on the
no-confirmation path, and on the confirmation path via a prompt whose
callback data routes `button_handler` to the same single RPC; no other
printer-control RPC is issued by these four handlers. -/
theorem C7_print_management_rpcs :
    (∀ b : Bool, Bot.rpcs_of (Bot.pause_printing b)
        = if b then [] else [Bot.Rpc.manage_printing "pause"]) ∧
    (∀ b : Bool, Bot.rpcs_of (Bot.resume_printing b)
        = if b then [] else [Bot.Rpc.manage_printing "resume"]) ∧
    (∀ b : Bool, Bot.rpcs_of (Bot.cancel_printing b)
        = if b then [] else [Bot.Rpc.manage_printing "cancel"]) ∧
    (∀ b : Bool, Bot.rpcs_of (Bot.emergency_stop b)
        = if b then [] else [Bot.Rpc.emergency_stop_printer]) ∧
    Bot.prompt_callbacks (Bot.pause_printing true) = ["pause_printing"] ∧
    Bot.prompt_callbacks (Bot.resume_printing true) = ["resume_printing"] ∧
    Bot.prompt_callbacks (Bot.cancel_printing true) = ["cancel_printing"] ∧
    Bot.prompt_callbacks (Bot.emergency_stop true) = ["emergency_stop"] ∧
    Bot.rpcs_of (Bot.button_handler "pause_printing" true)
      = [Bot.Rpc.manage_printing "pause"] ∧
    Bot.rpcs_of (Bot.button_handler "resume_printing" true)
      = [Bot.Rpc.manage_printing "resume"] ∧
    Bot.rpcs_of (Bot.button_handler "cancel_printing" true)
      = [Bot.Rpc.manage_printing "cancel"] ∧
    Bot.rpcs_of (Bot.button_handler "emergency_stop" true)
      = [Bot.Rpc.emergency_stop_printer] := by
  decide

/-- **C8.** `SensitiveFormatter.format` masks every occurrence of the
bot-token pattern `\d{10}:[0-9A-Za-z_-]{35}` with `"**************"` (this is
what `sub_tokens`, the embedding of `re.sub`, does occurrence by
occurrence), and the returned string contains no substring matching the
pattern at any position — in particular the replacement cannot create a new
match. -/
theorem C8_sensitive_filter_no_token :
    Bot.mask_stars = "**************".data ∧
    ∀ (s : String) (n : Nat),
      Bot.matchClasses Bot.token_pattern ((Bot.sensitive_filter s).data.drop n)
        = none := by
  constructor
  · decide
  · intro s n
    exact Bot.sub_tokens_no_match s.data.length s.data le_rfl n

/-- **C9.** In `power_toggle_no_confirm`, when the PSU device's
`device_state` is true the prompt text is exactly `"Power Off"` with callback
data `"power_off_printer"`; when it is false the text is exactly
`"On printer?"` with callback data `"power_on_printer"`; the conditional
grouping means `"Power On printer?"` is never produced. -/
theorem C9_power_toggle_grouping :
    Bot.power_toggle_text true = "Power Off" ∧
    Bot.power_toggle_callback true = "power_off_printer" ∧
    Bot.power_toggle_text false = "On printer?" ∧
    Bot.power_toggle_callback false = "power_on_printer" ∧
    ∀ b : Bool, Bot.power_toggle_text b ≠ "Power On printer?" := by
  refine ⟨rfl, rfl, rfl, rfl, ?_⟩
  intro b
  cases b <;> decide

/-- **C10.** For every list of macro names, every value of `add_macros` and
every hidden-command configuration, `prepare_commands_list` returns at most
99 entries, and with `add_macros` set the combined built-in-plus-macro list
is truncated to its first 99 elements exactly when it has 100 or more. -/
theorem C10_commands_list_capped (macros : List String) (add_macros : Bool)
    (hidden : List String) :
    (Bot.prepare_commands_list macros add_macros hidden).length ≤ 99 ∧
    Bot.prepare_commands_list macros true hidden =
      (if 100 ≤ (Bot.bot_commands hidden ++
            macros.filterMap Bot.prepare_command).length then
        (Bot.bot_commands hidden ++ macros.filterMap Bot.prepare_command).take 99
      else
        Bot.bot_commands hidden ++ macros.filterMap Bot.prepare_command) := by
  have hbase : (Bot.bot_commands hidden).length ≤ 20 := by
    have h := List.length_filter_le
      (fun c : String × String => !(hidden.contains c.1)) Bot.bot_commands_base
    simpa [Bot.bot_commands] using h
  constructor
  · simp only [Bot.prepare_commands_list]
    cases add_macros with
    | false =>
      simpa using hbase.trans (by norm_num)
    | true =>
      rw [if_pos rfl]
      split
      · exact List.length_take_le 99 _
      · rename_i hlt
        simp only [List.length_append, not_le] at hlt
        simp only [List.length_append]
        omega
  · rfl
